import Mathlib

/-!
Shallow embedding of the scitex-dataset core: the four source adapters
(openneuro, dandi, physionet, zenodo) with their pagination loops and
record normalizers, the in-memory sort engine from search.py, and the
SQLite-backed local index store from database.py.

Conventions used throughout:

* JSON fields that may be absent or null are modelled as `Option`;
  absence and explicit null are identified (the Python code reads them
  with `dict.get`, and the distinction between a missing key and a key
  bound to `None` does not matter on any path a claim touches).
* Python floats are modelled as rationals; `round(x, n)` is modelled as
  rounding to the nearest multiple of `10 ^ (-n)` over `ℚ`.
* Network calls are modelled by an oracle argument mapping a page
  request (cursor or page number) to the outcome of that request; the
  two caught exception classes (`httpx.HTTPStatusError` and
  `httpx.RequestError`) are collapsed into one error outcome because
  every handler in the source treats them identically (log and break).
* The Python `while True` pagination loops are modelled with an explicit
  fuel argument; a result of `none` means the fuel ran out, which
  corresponds to no terminating Python execution, so theorems about a
  loop are stated on runs that produce `some`.
-/

/-- Python truthiness of an optional string: `None` and the empty string
are falsy. -/
def strTruthy : Option String → Bool
  | none => false
  | some s => !(s == "")

/-- Python `a or b` where `a` is an optional string and `b` a string
default: the default is used when `a` is `None` or empty. -/
def orStr (v : Option String) (d : String) : String :=
  match v with
  | some s => if s = "" then d else s
  | none => d

/-- Model of the Python guard `max_datasets and len(acc) >= max_datasets`
that every pagination loop uses: `None` and `0` are falsy, so no cap is
applied in those cases. -/
def capReached (maxd : Option Nat) (len : Nat) : Bool :=
  match maxd with
  | none => false
  | some m => decide (0 < m) && decide (m ≤ len)

/-- Model of Python `round(x, 2)` over the rationals. -/
def round2 (x : ℚ) : ℚ := (round (x * 100) : ℤ) / 100

/-- Model of Python `round(x, 3)` over the rationals. -/
def round3 (x : ℚ) : ℚ := (round (x * 1000) : ℤ) / 1000

namespace openneuro

/-- The analytics sub-object of an OpenNeuro GraphQL node. -/
structure Analytics where
  views : Option Nat := none
  downloads : Option Nat := none
deriving DecidableEq

/-- The draft.description sub-object (BIDS dataset_description). -/
structure Description where
  Name : Option String := none
  BIDSVersion : Option String := none
  License : Option String := none
  Authors : Option (List String) := none
  SeniorAuthor : Option String := none
  DatasetDOI : Option String := none
  DatasetType : Option String := none
  Acknowledgements : Option String := none
  HowToAcknowledge : Option String := none
  Funding : Option String := none
  ReferencesAndLinks : Option (List String) := none
  EthicsApprovals : Option (List String) := none
deriving DecidableEq

/-- The draft.summary sub-object. -/
structure Summary where
  modalities : Option (List String) := none
  primaryModality : Option String := none
  secondaryModalities : Option (List String) := none
  sessions : Option (List String) := none
  subjects : Option (List String) := none
  tasks : Option (List String) := none
  size : Option Nat := none
  totalFiles : Option Nat := none
  dataProcessed : Option Bool := none
deriving DecidableEq

/-- The draft sub-object of a node. -/
structure Draft where
  modified : Option String := none
  readme : Option String := none
  description : Option Description := none
  summary : Option Summary := none
deriving DecidableEq

/-- A raw GraphQL dataset node. The id field is read with direct
indexing in the source, so it is required here. -/
structure Node where
  id : String
  name : Option String := none
  created : Option String := none
  public : Option Bool := none
  publishDate : Option String := none
  analytics : Option Analytics := none
  draft : Option Draft := none
deriving DecidableEq

/-- Outcome of one fetch_datasets call: the two caught httpx exception
classes are collapsed into fetchError, a GraphQL errors payload is
gqlErrors, and a normal page carries the edge nodes plus pageInfo. The
edge wrapper objects are collapsed to their node contents. -/
inductive Page where
  | fetchError : Page
  | gqlErrors : Page
  | ok (edges : List Node) (hasNextPage : Bool) (endCursor : Option String) : Page
deriving DecidableEq

/-- Model of the while-loop body of openneuro.fetch_all_datasets: on a
fetch error or GraphQL errors it breaks returning the accumulation; it
appends the page nodes, breaks (without trimming) once the cap is
reached, breaks when hasNextPage is falsy, and otherwise continues from
endCursor. -/
def fetch_all_loop (oracle : Option String → Page) (max_datasets : Option Nat) :
    Nat → Option String → List Node → Option (List Node)
  | 0, _, _ => none
  | fuel + 1, cursor, acc =>
    match oracle cursor with
    | .fetchError => some acc
    | .gqlErrors => some acc
    | .ok edges hasNextPage endCursor =>
      let acc2 := acc ++ edges
      if capReached max_datasets acc2.length then some acc2
      else if hasNextPage then fetch_all_loop oracle max_datasets fuel endCursor acc2
      else some acc2

/-- Model of openneuro.fetch_all_datasets: run the loop from a `None`
cursor with an empty accumulation. -/
def fetch_all_datasets (oracle : Option String → Page) (max_datasets : Option Nat)
    (fuel : Nat) : Option (List Node) :=
  fetch_all_loop oracle max_datasets fuel none []

/-- The normalized record produced by openneuro.format_dataset, with one
field per key of the returned dict. -/
structure Formatted where
  id : String
  name : String
  created : Option String
  modified : Option String
  publish_date : Option String
  public : Option Bool
  views : Option Nat
  downloads : Option Nat
  readme : Option String
  bids_version : Option String
  license : Option String
  authors : Option (List String)
  senior_author : Option String
  doi : Option String
  dataset_type : Option String
  acknowledgements : Option String
  how_to_acknowledge : Option String
  funding : Option String
  references_and_links : Option (List String)
  ethics_approvals : Option (List String)
  modalities : List String
  primary_modality : Option String
  secondary_modalities : List String
  sessions : List String
  n_subjects : Nat
  tasks : List String
  size_gb : ℚ
  total_files : Nat
  data_processed : Option Bool
deriving DecidableEq

/-- Model of openneuro.format_dataset. -/
def format_dataset (node : Node) : Formatted :=
  let draft := node.draft.getD {}
  let description := draft.description.getD {}
  let summary := draft.summary.getD {}
  let analytics := node.analytics.getD {}
  let size_bytes := summary.size.getD 0
  { id := node.id
  , name := orStr node.name (description.Name.getD "N/A")
  , created := node.created
  , modified := draft.modified
  , publish_date := node.publishDate
  , public := node.public
  , views := analytics.views
  , downloads := analytics.downloads
  , readme := draft.readme
  , bids_version := description.BIDSVersion
  , license := description.License
  , authors := description.Authors
  , senior_author := description.SeniorAuthor
  , doi := description.DatasetDOI
  , dataset_type := description.DatasetType
  , acknowledgements := description.Acknowledgements
  , how_to_acknowledge := description.HowToAcknowledge
  , funding := description.Funding
  , references_and_links := description.ReferencesAndLinks
  , ethics_approvals := description.EthicsApprovals
  , modalities := summary.modalities.getD []
  , primary_modality := summary.primaryModality
  , secondary_modalities := summary.secondaryModalities.getD []
  , sessions := summary.sessions.getD []
  , n_subjects := (summary.subjects.getD []).length
  , tasks := summary.tasks.getD []
  , size_gb := round2 ((size_bytes : ℚ) / 1024 ^ 3)
  , total_files := summary.totalFiles.getD 0
  , data_processed := summary.dataProcessed }

end openneuro

namespace dandi

/-- The draft_version sub-object of a dandiset. -/
structure DraftVersion where
  name : Option String := none
  version : Option String := none
  status : Option String := none
  asset_count : Option Nat := none
  size : Option Nat := none
deriving DecidableEq

/-- A raw dandiset record from the DANDI REST API. -/
structure Dandiset where
  identifier : Option String := none
  created : Option String := none
  modified : Option String := none
  contact_person : Option String := none
  embargo_status : Option String := none
  draft_version : Option DraftVersion := none
deriving DecidableEq

/-- Outcome of one dandi.fetch_datasets call: a caught httpx error, or a
page envelope carrying the results list and the truthiness of its next
link. -/
inductive Page where
  | fetchError : Page
  | ok (results : List Dandiset) (hasNext : Bool) : Page
deriving DecidableEq

/-- Model of the while-loop body of dandi.fetch_all_datasets: break on a
caught fetch error or an empty results list, extend the accumulation,
trim to max_datasets and break when the cap is reached, break when the
next link is falsy, else advance the page number. -/
def fetch_all_loop (oracle : Nat → Page) (max_datasets : Option Nat) :
    Nat → Nat → List Dandiset → Option (List Dandiset)
  | 0, _, _ => none
  | fuel + 1, page, acc =>
    match oracle page with
    | .fetchError => some acc
    | .ok results hasNext =>
      if results.isEmpty then some acc
      else
        let acc2 := acc ++ results
        if capReached max_datasets acc2.length then some (acc2.take (max_datasets.getD 0))
        else if hasNext then fetch_all_loop oracle max_datasets fuel (page + 1) acc2
        else some acc2

/-- Model of dandi.fetch_all_datasets: run the loop from page 1 with an
empty accumulation. -/
def fetch_all_datasets (oracle : Nat → Page) (max_datasets : Option Nat)
    (fuel : Nat) : Option (List Dandiset) :=
  fetch_all_loop oracle max_datasets fuel 1 []

/-- Python str() of an optional string interpolated into an f-string:
`None` prints as the four letters None. -/
def fstrOpt : Option String → String
  | none => "None"
  | some s => s

/-- The record produced by dandi.format_dataset. -/
structure Formatted where
  id : String
  name : String
  created : Option String
  modified : Option String
  version : Option String
  status : Option String
  contact : String
  n_assets : Nat
  size_bytes : Nat
  size_gb : ℚ
  url : String
  embargo_status : Option String
deriving DecidableEq

/-- Model of dandi.format_dataset. -/
def format_dataset (dandiset : Dandiset) : Formatted :=
  let draft := dandiset.draft_version.getD {}
  let contact := dandiset.contact_person.getD ""
  { id := dandiset.identifier.getD ""
  , name := draft.name.getD (dandiset.identifier.getD "N/A")
  , created := dandiset.created
  , modified := dandiset.modified
  , version := draft.version
  , status := draft.status
  , contact := contact
  , n_assets := draft.asset_count.getD 0
  , size_bytes := draft.size.getD 0
  , size_gb := round2 ((draft.size.getD 0 : ℚ) / 1024 ^ 3)
  , url := "https://dandiarchive.org/dandiset/" ++ fstrOpt dandiset.identifier
  , embargo_status := dandiset.embargo_status }

end dandi

namespace physionet

/-- The license field of a PhysioNet record is either a sub-object with
a name field or a bare string; the source branches on isinstance. -/
inductive LicenseVal where
  | dict (name : Option String) : LicenseVal
  | str (s : String) : LicenseVal
deriving DecidableEq

/-- A raw PhysioNet database record. -/
structure Database where
  slug : Option String := none
  short_name : Option String := none
  title : Option String := none
  name : Option String := none
  version : Option String := none
  abstract : Option String := none
  description : Option String := none
  doi : Option String := none
  license : Option LicenseVal := none
  subject_count : Option Nat := none
  record_count : Option Nat := none
  total_size : Option Nat := none
  publish_date : Option String := none
  data_access : Option String := none
deriving DecidableEq

/-- Outcome of one physionet.fetch_datasets call: a caught httpx error,
a bare JSON list (no next page by construction), or a paginated envelope
with a results list and the truthiness of its next link. The two
envelope key spellings (results, databases) are collapsed. -/
inductive Page where
  | fetchError : Page
  | plainList (databases : List Database) : Page
  | envelope (databases : List Database) (hasNext : Bool) : Page
deriving DecidableEq

/-- Model of the while-loop body of physionet.fetch_all_datasets: break
on a caught fetch error or an empty page, extend, trim and break at the
cap, break when there is no next page (always the case for a bare
list), else advance the page number. -/
def fetch_all_loop (oracle : Nat → Page) (max_datasets : Option Nat) :
    Nat → Nat → List Database → Option (List Database)
  | 0, _, _ => none
  | fuel + 1, page, acc =>
    match oracle page with
    | .fetchError => some acc
    | .plainList databases =>
      if databases.isEmpty then some acc
      else
        let acc2 := acc ++ databases
        if capReached max_datasets acc2.length then some (acc2.take (max_datasets.getD 0))
        else some acc2
    | .envelope databases hasNext =>
      if databases.isEmpty then some acc
      else
        let acc2 := acc ++ databases
        if capReached max_datasets acc2.length then some (acc2.take (max_datasets.getD 0))
        else if hasNext then fetch_all_loop oracle max_datasets fuel (page + 1) acc2
        else some acc2

/-- Model of physionet.fetch_all_datasets: run the loop from page 1 with
an empty accumulation. -/
def fetch_all_datasets (oracle : Nat → Page) (max_datasets : Option Nat)
    (fuel : Nat) : Option (List Database) :=
  fetch_all_loop oracle max_datasets fuel 1 []

/-- The record produced by physionet.format_dataset. -/
structure Formatted where
  id : String
  name : String
  version : String
  abstract : String
  doi : String
  license : String
  n_subjects : Nat
  n_records : Nat
  size_gb : ℚ
  publish_date : String
  url : String
  data_access : String
deriving DecidableEq

/-- Model of physionet.format_dataset. -/
def format_dataset (database : Database) : Formatted :=
  let slug := database.slug.getD (database.short_name.getD "")
  let title := database.title.getD (database.name.getD "N/A")
  { id := slug
  , name := title
  , version := database.version.getD ""
  , abstract := database.abstract.getD (database.description.getD "")
  , doi := database.doi.getD ""
  , license :=
      match database.license with
      | none => ""
      | some (.dict nm) => nm.getD ""
      | some (.str s) => s
  , n_subjects := database.subject_count.getD 0
  , n_records := database.record_count.getD 0
  , size_gb := round2 ((database.total_size.getD 0 : ℚ) / 1024 ^ 3)
  , publish_date := database.publish_date.getD ""
  , url := if slug = "" then "" else "https://physionet.org/content/" ++ slug ++ "/"
  , data_access := database.data_access.getD "" }

end physionet

namespace zenodo

/-- A creator entry in Zenodo metadata. -/
structure Creator where
  name : Option String := none
deriving DecidableEq

/-- A subject entry in Zenodo metadata. -/
structure SubjectEntry where
  term : Option String := none
deriving DecidableEq

/-- A file entry of a Zenodo record. -/
structure FileEntry where
  size : Option Nat := none
deriving DecidableEq

/-- The stats sub-object of a Zenodo record. -/
structure Stats where
  views : Option Nat := none
  downloads : Option Nat := none
deriving DecidableEq

/-- The license field is either a sub-object with an id or a bare value
coerced by str(); the source branches on isinstance. -/
inductive LicenseVal where
  | dict (id : Option String) : LicenseVal
  | str (s : String) : LicenseVal
deriving DecidableEq

/-- The resource_type field is either a sub-object with type and subtype
keys or a bare value coerced by str(). -/
inductive ResType where
  | dict (rtype : Option String) (subtype : Option String) : ResType
  | str (s : String) : ResType
deriving DecidableEq

/-- The metadata sub-object of a Zenodo record. -/
structure Metadata where
  title : Option String := none
  doi : Option String := none
  description : Option String := none
  publication_date : Option String := none
  version : Option String := none
  creators : Option (List Creator) := none
  keywords : Option (List String) := none
  subjects : Option (List SubjectEntry) := none
  license : Option LicenseVal := none
  resource_type : Option ResType := none
deriving DecidableEq

/-- A raw Zenodo record. The numeric record id is coerced with str() on
output; links_html models record.links.html. -/
structure Record where
  id : Option Nat := none
  doi : Option String := none
  created : Option String := none
  updated : Option String := none
  metadata : Option Metadata := none
  stats : Option Stats := none
  files : Option (List FileEntry) := none
  links_html : Option String := none
deriving DecidableEq

/-- Outcome of one zenodo.fetch_datasets call: an uncaught httpx error,
or the hits list together with the reported total. -/
inductive Page where
  | fetchError : Page
  | ok (hits : List Record) (total : Nat) : Page
deriving DecidableEq

/-- Model of the while-loop body of zenodo.fetch_all_datasets. Unlike
the other three adapters this loop has no try-except, so a fetch error
propagates as an exception (modelled by Except.error). It breaks on an
empty hits list, extends, trims and breaks at the cap, breaks once the
accumulation reaches the reported total, else advances the page. -/
def fetch_all_loop (oracle : Nat → Page) (max_datasets : Option Nat) :
    Nat → Nat → List Record → Option (Except Unit (List Record))
  | 0, _, _ => none
  | fuel + 1, page, acc =>
    match oracle page with
    | .fetchError => some (Except.error ())
    | .ok hits total =>
      if hits.isEmpty then some (Except.ok acc)
      else
        let acc2 := acc ++ hits
        if capReached max_datasets acc2.length then
          some (Except.ok (acc2.take (max_datasets.getD 0)))
        else if acc2.length ≥ total then some (Except.ok acc2)
        else fetch_all_loop oracle max_datasets fuel (page + 1) acc2

/-- Model of zenodo.fetch_all_datasets: run the loop from page 1 with an
empty accumulation. -/
def fetch_all_datasets (oracle : Nat → Page) (max_datasets : Option Nat)
    (fuel : Nat) : Option (Except Unit (List Record)) :=
  fetch_all_loop oracle max_datasets fuel 1 []

/-- The record produced by zenodo.format_dataset. -/
structure Formatted where
  id : String
  doi : String
  name : String
  description : String
  created : String
  modified : String
  publish_date : String
  version : String
  authors : List String
  keywords : List String
  license : String
  dataset_type : String
  dataset_subtype : String
  n_files : Nat
  size_bytes : Nat
  size_gb : ℚ
  views : Nat
  downloads : Nat
  url : String
  source : String
deriving DecidableEq

/-- Model of zenodo.format_dataset. -/
def format_dataset (record : Record) : Formatted :=
  let metadata := record.metadata.getD {}
  let stats := record.stats.getD {}
  let files := record.files.getD []
  let authors := (metadata.creators.getD []).map (fun c => c.name.getD "")
  let total_size := (files.map (fun f => f.size.getD 0)).sum
  let keywords := metadata.keywords.getD []
  let subjects := (metadata.subjects.getD []).map (fun s => s.term.getD "")
  let idStr := match record.id with
    | none => ""
    | some n => toString n
  { id := idStr
  , doi := record.doi.getD (metadata.doi.getD "")
  , name := metadata.title.getD ""
  , description := metadata.description.getD ""
  , created := record.created.getD ""
  , modified := record.updated.getD ""
  , publish_date := metadata.publication_date.getD ""
  , version := metadata.version.getD ""
  , authors := authors
  , keywords := keywords ++ subjects
  , license :=
      match metadata.license with
      | none => ""
      | some (.dict i) => i.getD ""
      | some (.str s) => s
  , dataset_type :=
      match metadata.resource_type with
      | none => ""
      | some (.dict t _) => t.getD ""
      | some (.str s) => s
  , dataset_subtype :=
      match metadata.resource_type with
      | none => ""
      | some (.dict _ st) => st.getD ""
      | some (.str _) => ""
  , n_files := files.length
  , size_bytes := total_size
  , size_gb := if total_size = 0 then 0 else round3 ((total_size : ℚ) / 1024 ^ 3)
  , views := stats.views.getD 0
  , downloads := stats.downloads.getD 0
  , url := record.links_html.getD ("https://zenodo.org/record/" ++ idStr)
  , source := "zenodo" }

end zenodo

namespace search

/-- A formatted dataset as seen by sort_datasets: a Python dict. The
sortable ranking fields carry integer values in this development; a key
that is absent models a dataset missing the sort field. -/
abbrev Dict := List (String × Int)

/-- Python d.get(k): the value at the first binding of the key, if any. -/
def dictGet (d : Dict) (k : String) : Option Int :=
  (d.find? (fun p => p.1 == k)).map (fun p => p.2)

/-- The value space of the sort key function in sort_datasets: an
integer, or the float("inf") sentinel used for missing fields in an
ascending sort. -/
inductive SortKey where
  | val (n : Int) : SortKey
  | posInf : SortKey
deriving DecidableEq

/-- Comparison on sort keys: integers compare as integers and
float("inf") is above every integer. -/
def SortKey.le : SortKey → SortKey → Bool
  | .val a, .val b => decide (a ≤ b)
  | .val _, .posInf => true
  | .posInf, .posInf => true
  | .posInf, .val _ => false

/-- Model of the inner get_key closure of sort_datasets: a record
missing the field keys as 0 when descending and as float("inf")
otherwise. The Python parameter named by is called field here. -/
def get_key (descending : Bool) (field : String) (d : Dict) : SortKey :=
  match dictGet d field with
  | none => if descending then .val 0 else .posInf
  | some v => .val v

/-- Model of sort_datasets: Python sorted(datasets, key=get_key,
reverse=descending), i.e. a stable sort, with the comparison reversed
when descending. -/
def sort_datasets (datasets : List Dict) (field : String) (descending : Bool) : List Dict :=
  if descending then
    datasets.mergeSort (fun a b =>
      SortKey.le (get_key descending field b) (get_key descending field a))
  else
    datasets.mergeSort (fun a b =>
      SortKey.le (get_key descending field a) (get_key descending field b))

end search

namespace database

/-- The dict handed to _insert_dataset: a normalized dataset as produced
by the per-source format_dataset functions. Each field mirrors one
dataset.get call in _insert_dataset. -/
structure Dataset where
  id : Option String := none
  name : Option String := none
  created : Option String := none
  modified : Option String := none
  n_subjects : Option Int := none
  size_gb : Option ℚ := none
  downloads : Option Int := none
  views : Option Int := none
  readme : Option String := none
  license : Option String := none
  doi : Option String := none
  url : Option String := none
  modalities : Option (List String) := none
  tasks : Option (List String) := none
  primary_modality : Option String := none
deriving DecidableEq

/-- Model of json.dumps for a list of strings (quote escaping omitted;
no claim exercises strings containing quote characters). -/
def jsonDumpsList (xs : List String) : String :=
  "[" ++ String.intercalate ", " (xs.map (fun s => "\"" ++ s ++ "\"")) ++ "]"

/-- One row of the datasets table. data_json holds the full dataset
serialized verbatim; it is modelled by the Dataset value itself since
json.dumps followed by json.loads is the identity on it. -/
structure Row where
  id : String
  source : String
  name : Option String
  created : Option String
  modified : Option String
  n_subjects : Int
  size_gb : ℚ
  downloads : Int
  views : Int
  readme : Option String
  license : Option String
  doi : Option String
  url : Option String
  modalitiesJson : String
  tasksJson : String
  primary_modality : Option String
  data_json : Dataset
  indexed_at : String
deriving DecidableEq

/-- One entry of the datasets_fts index, carrying the four indexed text
columns as inserted by the triggers. -/
structure FtsEntry where
  id : String
  name : Option String
  readme : Option String
  tasks : String
deriving DecidableEq

/-- The persisted store: the datasets table (as rowid-keyed rows in
insertion order), the datasets_fts shadow table, and the metadata
key-value table. -/
structure DbState where
  datasets : List (Nat × Row)
  fts : List (Nat × FtsEntry)
  metadata : List (String × String)
deriving DecidableEq

/-- A freshly created store: the tables exist and are empty. -/
def emptyDb : DbState := ⟨[], [], []⟩

/-- Model of _get_connection on a path: when no store file exists one is
created with empty tables, otherwise the existing store is opened. -/
def get_connection : Option DbState → DbState
  | none => emptyDb
  | some st => st

/-- The row built by the VALUES tuple of _insert_dataset. -/
def mkRow (dataset : Dataset) (source : String) (now : String) : Row :=
  { id := source ++ ":" ++ dataset.id.getD ""
  , source := source
  , name := dataset.name
  , created := dataset.created
  , modified := dataset.modified
  , n_subjects := dataset.n_subjects.getD 0
  , size_gb := dataset.size_gb.getD 0
  , downloads := dataset.downloads.getD 0
  , views := dataset.views.getD 0
  , readme := dataset.readme
  , license := dataset.license
  , doi := dataset.doi
  , url := dataset.url
  , modalitiesJson := jsonDumpsList (dataset.modalities.getD [])
  , tasksJson := jsonDumpsList (dataset.tasks.getD [])
  , primary_modality := dataset.primary_modality
  , data_json := dataset
  , indexed_at := now }

/-- The columns the AFTER INSERT trigger copies into datasets_fts. -/
def ftsOf (r : Row) : FtsEntry := ⟨r.id, r.name, r.readme, r.tasksJson⟩

/-- The next rowid SQLite allocates: one past the largest rowid in use. -/
def maxRowid (rows : List (Nat × Row)) : Nat :=
  rows.foldl (fun m p => max m p.1) 0

/-- Model of _insert_dataset: the INSERT OR REPLACE statement under
default SQLite semantics. A conflicting row (same primary key id) is
removed by REPLACE conflict resolution, which with the default pragma
recursive_triggers=off does NOT fire the AFTER DELETE trigger; the
AFTER INSERT trigger then fires for the new row, appending its
datasets_fts entry. -/
def insert_dataset (st : DbState) (dataset : Dataset) (source : String) (now : String) :
    DbState :=
  let row := mkRow dataset source now
  let remaining := st.datasets.filter (fun p => !(p.2.id == row.id))
  let rid := maxRowid remaining + 1
  { st with
    datasets := remaining ++ [(rid, row)]
    fts := st.fts ++ [(rid, ftsOf row)] }

/-- Assignment into a Python dict or an INSERT OR REPLACE into a
key-value table: overwrite in place when the key exists, else append. -/
def setAssoc {α : Type} (l : List (String × α)) (k : String) (v : α) : List (String × α) :=
  if l.any (fun p => p.1 == k) then
    l.map (fun p => if p.1 == k then (k, v) else p)
  else l ++ [(k, v)]

/-- The sources database.build dispatches on; any other requested source
hits the warn-and-continue branch. -/
def knownSources : List String := ["openneuro", "dandi", "physionet"]

/-- One iteration of the per-source loop in database.build. The fetched
argument models the combined outcome of fetch_all_datasets plus the
format_dataset list comprehension for a source: ok with the formatted
datasets, or error when the fetch raised (the except branch then records
a count of 0). Unknown sources are skipped without a counts entry. -/
def build_source (fetched : String → Except Unit (List Dataset)) (now : String)
    (st : DbState) (counts : List (String × Nat)) (source : String) :
    DbState × List (String × Nat) :=
  if source ∈ knownSources then
    match fetched source with
    | .ok ds =>
      (ds.foldl (fun s d => insert_dataset s d source now) st,
       setAssoc counts source ds.length)
    | .error _ => (st, setAssoc counts source 0)
  else (st, counts)

/-- Model of database.build: default the sources to the three known
ones, run the per-source loop, then update the metadata keys last_build
and total_datasets once at the end of the pass. -/
def build (fetched : String → Except Unit (List Dataset)) (sources : Option (List String))
    (now : String) (st : DbState) : List (String × Nat) × DbState :=
  let srcs := sources.getD knownSources
  let stc := srcs.foldl (fun p s => build_source fetched now p.1 p.2 s) (st, [])
  let md := setAssoc (setAssoc stc.1.metadata "last_build" now)
      "total_datasets" (toString (stc.2.foldl (fun a p => a + p.2) 0))
  (stc.2, { stc.1 with metadata := md })

/-- The parameters of database.search with their Python defaults. -/
structure SearchParams where
  query : Option String := none
  source : Option String := none
  modality : Option String := none
  min_subjects : Option Int := none
  max_subjects : Option Int := none
  min_downloads : Option Int := none
  has_readme : Bool := false
  limit : Nat := 50
  offset : Nat := 0
  order_by : String := "downloads"

/-- Case-insensitive substring test, modelling SQLite LIKE on ASCII
text; implemented via splitOn since the occurrence count is all that
matters. -/
def strContainsCI (s pat : String) : Bool :=
  ((s.toLower).splitOn (pat.toLower)).length != 1

/-- Ids returned by the FTS subquery: for every index entry matching the
query, the id column is read back from the datasets row with that rowid
(datasets_fts is an external-content table); entries whose rowid no
longer exists contribute NULL, which an IN test never matches, so they
are dropped. The token-matching semantics of fts5 itself is left as the
ftsMatch parameter. -/
def ftsMatchedIds (ftsMatch : String → FtsEntry → Bool) (st : DbState) (q : String) :
    List String :=
  (st.fts.filter (fun e => ftsMatch q e.2)).filterMap
    (fun e => (st.datasets.find? (fun p => p.1 == e.1)).map (fun p => p.2.id))

/-- The WHERE clause of database.search applied to one row, one
conjunct per optional parameter, mirroring the condition list built in
the source (string parameters are guarded by Python truthiness, numeric
ones by an is-not-None test). -/
def rowMatches (ftsMatch : String → FtsEntry → Bool) (st : DbState) (p : SearchParams)
    (r : Row) : Bool :=
  (match p.query with
   | none => true
   | some q => if q = "" then true else (ftsMatchedIds ftsMatch st q).contains r.id) &&
  (match p.source with
   | none => true
   | some s => if s = "" then true else r.source == s) &&
  (match p.modality with
   | none => true
   | some m =>
     if m = "" then true
     else strContainsCI r.modalitiesJson ("\"" ++ m ++ "\"") || r.primary_modality == some m) &&
  (match p.min_subjects with
   | none => true
   | some n => decide (n ≤ r.n_subjects)) &&
  (match p.max_subjects with
   | none => true
   | some n => decide (r.n_subjects ≤ n)) &&
  (match p.min_downloads with
   | none => true
   | some n => decide (n ≤ r.downloads)) &&
  (if p.has_readme then
     match r.readme with
     | none => false
     | some s => !(s == "")
   else true)

/-- An SQLite column value as used by ORDER BY: NULL sorts below
numbers, numbers below text. -/
inductive SqlVal where
  | null : SqlVal
  | int (i : Int) : SqlVal
  | real (q : ℚ) : SqlVal
  | text (s : String) : SqlVal
deriving DecidableEq

/-- SQLite ordering on column values. -/
def SqlVal.le : SqlVal → SqlVal → Bool
  | .null, _ => true
  | .int _, .null => false
  | .real _, .null => false
  | .text _, .null => false
  | .int i, .int j => decide (i ≤ j)
  | .int i, .real q => decide ((i : ℚ) ≤ q)
  | .real q, .int j => decide (q ≤ (j : ℚ))
  | .real p, .real q => decide (p ≤ q)
  | .int _, .text _ => true
  | .real _, .text _ => true
  | .text _, .int _ => false
  | .text _, .real _ => false
  | .text s, .text t => decide (s ≤ t)

/-- The ORDER BY allow-list checked by database.search. -/
def validOrders : List String :=
  ["downloads", "views", "n_subjects", "size_gb", "name", "created"]

/-- An unrecognized order_by silently falls back to downloads. -/
def validateOrder (o : String) : String :=
  if o ∈ validOrders then o else "downloads"

/-- The column value a row contributes under a validated order_by. -/
def orderKey (r : Row) (col : String) : SqlVal :=
  if col = "views" then .int r.views
  else if col = "n_subjects" then .int r.n_subjects
  else if col = "size_gb" then .real r.size_gb
  else if col = "name" then
    match r.name with
    | none => .null
    | some s => .text s
  else if col = "created" then
    match r.created with
    | none => .null
    | some s => .text s
  else .int r.downloads

/-- The SELECT of database.search over an open store: filter by the
WHERE clause, order by the validated column descending, apply OFFSET
then LIMIT, and return the deserialized data_json of each row. -/
def searchExec (ftsMatch : String → FtsEntry → Bool) (st : DbState) (p : SearchParams) :
    List Dataset :=
  let filtered := st.datasets.filter (fun q => rowMatches ftsMatch st p q.2)
  let ob := validateOrder p.order_by
  let ordered := filtered.mergeSort (fun a b => SqlVal.le (orderKey b.2 ob) (orderKey a.2 ob))
  ((ordered.drop p.offset).take p.limit).map (fun q => q.2.data_json)

/-- Model of database.search on a path: opening the connection creates
the store file when absent (the side effect on the file system is the
second component), then the SELECT runs against the opened store. -/
def search (ftsMatch : String → FtsEntry → Bool) (fs : Option DbState) (p : SearchParams) :
    List Dataset × Option DbState :=
  (searchExec ftsMatch (get_connection fs) p, some (get_connection fs))

/-- The dict returned by database.get_stats; existsFlag models the
exists key (spelled to avoid the Lean keyword); the never-built branch
leaves the remaining fields unpopulated, modelled by their defaults. -/
structure Stats where
  existsFlag : Bool
  total_datasets : Nat := 0
  by_source : List (String × Nat) := []
  last_build : Option String := none
deriving DecidableEq

/-- The GROUP BY source counts of get_stats. -/
def sourceCounts (st : DbState) : List (String × Nat) :=
  ((st.datasets.map (fun p => p.2.source)).dedup).map
    (fun s => (s, (st.datasets.filter (fun p => p.2.source == s)).length))

/-- Model of database.get_stats: when the store file does not exist it
returns exists=False at once (without creating the file); otherwise it
opens the store and reports the totals. -/
def get_stats (fs : Option DbState) : Stats :=
  match fs with
  | none => { existsFlag := false }
  | some st =>
    { existsFlag := true
    , total_datasets := st.datasets.length
    , by_source := sourceCounts st
    , last_build := (st.metadata.find? (fun p => p.1 == "last_build")).map (fun p => p.2) }

/-- The ids of the primary rows of the store. -/
def rowIds (st : DbState) : List String := st.datasets.map (fun p => p.2.id)

/-- The consistency property of the full-text index stated by the spec:
every primary row has exactly one datasets_fts entry (keyed by rowid)
and no entry refers to a rowid that no longer exists. -/
def ftsInSync (st : DbState) : Bool :=
  st.datasets.all (fun p => (st.fts.filter (fun e => e.1 == p.1)).length == 1) &&
  st.fts.all (fun e => st.datasets.any (fun p => p.1 == e.1))

end database

/-! Concrete inputs used by the claim theorems below. -/

/-- A normalized dataset for source openneuro with a given readme text. -/
def c1dataset (txt : String) : database.Dataset :=
  { id := some "ds000001", name := some "Memory Study", readme := some txt }

/-- The store after indexing ds000001 and then re-indexing it with a
changed readme, as two successive rebuild passes do. -/
def c1state : database.DbState :=
  database.insert_dataset
    (database.insert_dataset database.emptyDb (c1dataset "memory impairment in dementia") "openneuro" "t1")
    (c1dataset "updated readme text") "openneuro" "t2"

/-- An OpenNeuro node with only an id. -/
def c2node (k : Nat) : openneuro.Node := { id := "ds" ++ toString k }

/-- An OpenNeuro page oracle that always serves one ten-record page with
no further pages. -/
def c2onOracle : Option String → openneuro.Page :=
  fun _ => openneuro.Page.ok ((List.range 10).map c2node) false none

/-- A DANDI page oracle that always serves ten-record pages and always
reports a next link. -/
def c2dOracle : Nat → dandi.Page :=
  fun _ => dandi.Page.ok (List.replicate 10 {}) true

/-- A Zenodo page oracle: page 1 succeeds with three hits out of a
reported total of ten, every later page fails. -/
def c3zOracle : Nat → zenodo.Page :=
  fun p => if p = 1 then zenodo.Page.ok [{}, {}, {}] 10 else zenodo.Page.fetchError

/-- A DANDI page oracle: page 1 succeeds with three records and a next
link, every later page fails. -/
def c3dOracle : Nat → dandi.Page :=
  fun p => if p = 1 then dandi.Page.ok (List.replicate 3 {}) true else dandi.Page.fetchError

/-- A fetch outcome model where every source fetch succeeds with an
empty dataset list. -/
def c4fetched : String → Except Unit (List database.Dataset) :=
  fun _ => Except.ok []

/-- An OpenNeuro node carrying nothing but its id: every optional field
of the raw record is absent. -/
def c5node : openneuro.Node := { id := "ds000002" }

/-- An OpenNeuro node with an id and no human title anywhere. -/
def c6node : openneuro.Node := { id := "ds000003" }

/-- A dandiset whose draft_version has no name. -/
def c6dandiset : dandi.Dandiset :=
  { identifier := some "000001", draft_version := some {} }

/-- An OpenNeuro page oracle serving two three-record pages, then an
empty page that still reports hasNextPage, then a final two-record
page. -/
def c7onOracle : Option String → openneuro.Page
  | none => openneuro.Page.ok [c2node 1, c2node 2, c2node 3] true (some "c1")
  | some "c1" => openneuro.Page.ok [c2node 4, c2node 5, c2node 6] true (some "c2")
  | some "c2" => openneuro.Page.ok [] true (some "c3")
  | some "c3" => openneuro.Page.ok [c2node 7, c2node 8] false none
  | some _ => openneuro.Page.fetchError

/-- A DANDI page oracle serving two three-record pages and then empty
pages, each page reporting a next link. -/
def c7dOracle : Nat → dandi.Page :=
  fun p => if p ≤ 2 then dandi.Page.ok (List.replicate 3 {}) true
           else dandi.Page.ok [] true

/-- A record missing the downloads field (it only has views). -/
def c8missing : search.Dict := [("views", 5)]

/-- A record whose downloads field is present with value 0. -/
def c8zero : search.Dict := [("downloads", 0)]

/-! Helper lemmas shared by the claim theorems. -/

/-- Sorting a two-element list picks the order by one comparison. -/
theorem mergeSort_pair {α : Type} (le : α → α → Bool) (a b : α) :
    [a, b].mergeSort le = if le a b then [a, b] else [b, a] := by
  rw [List.mergeSort]
  simp [List.splitInTwo, List.mergeSort, List.merge]

/-- The sort-key order is reflexive. -/
theorem sortKey_le_refl (a : search.SortKey) : a.le a = true := by
  cases a <;> simp [search.SortKey.le]

/-- The sort-key order is transitive. -/
theorem sortKey_le_trans : ∀ a b c : search.SortKey,
    a.le b = true → b.le c = true → a.le c = true := by
  intro a b c hab hbc
  cases a <;> cases b <;> cases c <;> simp [search.SortKey.le] at * <;> omega

/-- The sort-key order is total. -/
theorem sortKey_le_total : ∀ a b : search.SortKey, a.le b || b.le a := by
  intro a b
  cases a <;> cases b <;> simp [search.SortKey.le] <;> omega

/-- When the cap test fails for a positive bound, the length is below
the bound. -/
theorem capReached_false {m len : Nat} (hm : 0 < m)
    (h : capReached (some m) len ≠ true) : len < m := by
  simp [capReached, hm] at h
  omega

/-- Every value the dandi pagination loop returns respects the cap when
the accumulation it starts from does. -/
theorem dandi_loop_clip : ∀ (fuel : Nat) (oracle : Nat → dandi.Page) (m page : Nat)
    (acc res : List dandi.Dandiset), 0 < m → acc.length ≤ m →
    dandi.fetch_all_loop oracle (some m) fuel page acc = some res → res.length ≤ m := by
  intro fuel
  induction fuel with
  | zero =>
    intro oracle m page acc res hm hacc h
    simp [dandi.fetch_all_loop] at h
  | succ n ih =>
    intro oracle m page acc res hm hacc h
    rw [dandi.fetch_all_loop] at h
    cases hp : oracle page with
    | fetchError =>
      rw [hp] at h
      simp at h
      exact h ▸ hacc
    | ok results hasNext =>
      rw [hp] at h
      simp only at h
      by_cases he : results.isEmpty
      · rw [if_pos he] at h
        simp at h
        exact h ▸ hacc
      · rw [if_neg he] at h
        by_cases hc : capReached (some m) (acc ++ results).length
        · rw [if_pos hc] at h
          simp at h
          subst h
          simp [List.length_take]
        · rw [if_neg hc] at h
          have hlt := capReached_false hm hc
          by_cases hn : hasNext
          · rw [if_pos hn] at h
            exact ih oracle m (page + 1) (acc ++ results) res hm (le_of_lt hlt) h
          · rw [if_neg hn] at h
            simp at h
            exact h ▸ (le_of_lt hlt)

/-- Every value the physionet pagination loop returns respects the cap
when the accumulation it starts from does. -/
theorem physionet_loop_clip : ∀ (fuel : Nat) (oracle : Nat → physionet.Page) (m page : Nat)
    (acc res : List physionet.Database), 0 < m → acc.length ≤ m →
    physionet.fetch_all_loop oracle (some m) fuel page acc = some res → res.length ≤ m := by
  intro fuel
  induction fuel with
  | zero =>
    intro oracle m page acc res hm hacc h
    simp [physionet.fetch_all_loop] at h
  | succ n ih =>
    intro oracle m page acc res hm hacc h
    rw [physionet.fetch_all_loop] at h
    cases hp : oracle page with
    | fetchError =>
      rw [hp] at h
      simp at h
      exact h ▸ hacc
    | plainList databases =>
      rw [hp] at h
      simp only at h
      by_cases he : databases.isEmpty
      · rw [if_pos he] at h
        simp at h
        exact h ▸ hacc
      · rw [if_neg he] at h
        by_cases hc : capReached (some m) (acc ++ databases).length
        · rw [if_pos hc] at h
          simp at h
          subst h
          simp [List.length_take]
        · rw [if_neg hc] at h
          have hlt := capReached_false hm hc
          simp at h
          exact h ▸ (le_of_lt hlt)
    | envelope databases hasNext =>
      rw [hp] at h
      simp only at h
      by_cases he : databases.isEmpty
      · rw [if_pos he] at h
        simp at h
        exact h ▸ hacc
      · rw [if_neg he] at h
        by_cases hc : capReached (some m) (acc ++ databases).length
        · rw [if_pos hc] at h
          simp at h
          subst h
          simp [List.length_take]
        · rw [if_neg hc] at h
          have hlt := capReached_false hm hc
          by_cases hn : hasNext
          · rw [if_pos hn] at h
            exact ih oracle m (page + 1) (acc ++ databases) res hm (le_of_lt hlt) h
          · rw [if_neg hn] at h
            simp at h
            exact h ▸ (le_of_lt hlt)

/-- Every list the zenodo pagination loop returns normally respects the
cap when the accumulation it starts from does. -/
theorem zenodo_loop_clip : ∀ (fuel : Nat) (oracle : Nat → zenodo.Page) (m page : Nat)
    (acc res : List zenodo.Record), 0 < m → acc.length ≤ m →
    zenodo.fetch_all_loop oracle (some m) fuel page acc = some (Except.ok res) →
    res.length ≤ m := by
  intro fuel
  induction fuel with
  | zero =>
    intro oracle m page acc res hm hacc h
    simp [zenodo.fetch_all_loop] at h
  | succ n ih =>
    intro oracle m page acc res hm hacc h
    rw [zenodo.fetch_all_loop] at h
    cases hp : oracle page with
    | fetchError =>
      rw [hp] at h
      simp at h
    | ok hits total =>
      rw [hp] at h
      simp only at h
      by_cases he : hits.isEmpty
      · rw [if_pos he] at h
        simp at h
        exact h ▸ hacc
      · rw [if_neg he] at h
        by_cases hc : capReached (some m) (acc ++ hits).length
        · rw [if_pos hc] at h
          simp at h
          subst h
          simp [List.length_take]
        · rw [if_neg hc] at h
          have hlt := capReached_false hm hc
          by_cases ht : (acc ++ hits).length ≥ total
          · rw [if_pos ht] at h
            simp at h
            exact h ▸ (le_of_lt hlt)
          · rw [if_neg ht] at h
            exact ih oracle m (page + 1) (acc ++ hits) res hm (le_of_lt hlt) h

/-- The composite primary key produced by _insert_dataset. -/
theorem mkRow_id (d : database.Dataset) (source now : String) :
    (database.mkRow d source now).id = source ++ ":" ++ d.id.getD "" := rfl

/-- Inserting a dataset adds its composite id to the id set and keeps
every other id. -/
theorem mem_rowIds_insert (st : database.DbState) (d : database.Dataset)
    (source now x : String) :
    x ∈ database.rowIds (database.insert_dataset st d source now) ↔
      x ∈ database.rowIds st ∨ x = source ++ ":" ++ d.id.getD "" := by
  simp only [database.rowIds, database.insert_dataset, List.map_append, List.mem_append,
    List.mem_map, List.mem_filter, List.map_cons, List.map_nil, List.mem_singleton, mkRow_id]
  constructor
  · rintro (⟨p, ⟨hp, hne⟩, rfl⟩ | rfl)
    · exact Or.inl ⟨p, hp, rfl⟩
    · exact Or.inr rfl
  · rintro (⟨p, hp, rfl⟩ | rfl)
    · by_cases hx : p.2.id = source ++ ":" ++ d.id.getD ""
      · exact Or.inr hx
      · exact Or.inl ⟨p, ⟨hp, by simp [mkRow_id, hx]⟩, rfl⟩
    · exact Or.inr rfl

/-- Folding a dataset list through insert_dataset makes the id set the
union of the starting ids and the composite ids of the list. -/
theorem mem_rowIds_insertAll : ∀ (ds : List database.Dataset) (st : database.DbState)
    (source now x : String),
    x ∈ database.rowIds (ds.foldl (fun s d => database.insert_dataset s d source now) st) ↔
      x ∈ database.rowIds st ∨ x ∈ ds.map (fun d => source ++ ":" ++ d.id.getD "") := by
  intro ds
  induction ds with
  | nil => intro st source now x; simp
  | cons d rest ih =>
    intro st source now x
    rw [List.foldl_cons, ih]
    rw [mem_rowIds_insert]
    simp only [List.map_cons, List.mem_cons]
    tauto

/-! Claim theorems. -/

/-- C1: the spec demands that every insert/replace/delete of a primary
row keeps datasets_fts holding exactly one entry per primary row and
none for vanished rows, so a search never sees stale text. The code
breaks this, contradicting its own comment that the triggers keep the
index in sync: REPLACE conflict resolution does not fire the AFTER
DELETE trigger under the default recursive_triggers=off pragma, so
re-indexing ds000001 with a changed readme leaves one primary row but
two datasets_fts entries, one still carrying the replaced readme text
that no primary row holds. -/
theorem C1_fts_desync :
    c1state.datasets.length = 1 ∧
    c1state.fts.length = 2 ∧
    database.ftsInSync c1state = false ∧
    (c1state.fts.filter
      (fun e => e.2.readme == some "memory impairment in dementia")).length = 1 ∧
    c1state.datasets.all
      (fun p => !(p.2.readme == some "memory impairment in dementia")) = true := by
  decide

/-- C2 counterexample: the claim says every adapter trims to exactly
max_records; openneuro fed a single ten-record page with max_datasets=5
returns all ten records, not five. -/
theorem C2_counterexample :
    openneuro.fetch_all_datasets c2onOracle (some 5) 3 = some ((List.range 10).map c2node) ∧
    ((List.range 10).map c2node).length = 10 := by
  constructor
  · decide
  · decide

/-- C2 amended: for the dandi, physionet and zenodo adapters, whenever
fetch_all terminates with a positive max_records the result holds at
most max_records raw records (the accumulation is trimmed on the page
that exceeds the cap); openneuro only stops requesting further pages
once the count reaches max_datasets and returns the accumulated page
contents untrimmed. -/
theorem C2_amended :
    (∀ (oracle : Nat → dandi.Page) (m fuel : Nat) (res : List dandi.Dandiset),
      0 < m → dandi.fetch_all_datasets oracle (some m) fuel = some res →
      res.length ≤ m) ∧
    (∀ (oracle : Nat → physionet.Page) (m fuel : Nat) (res : List physionet.Database),
      0 < m → physionet.fetch_all_datasets oracle (some m) fuel = some res →
      res.length ≤ m) ∧
    (∀ (oracle : Nat → zenodo.Page) (m fuel : Nat) (res : List zenodo.Record),
      0 < m → zenodo.fetch_all_datasets oracle (some m) fuel = some (Except.ok res) →
      res.length ≤ m) := by
  refine ⟨fun oracle m fuel res hm h => ?_, fun oracle m fuel res hm h => ?_,
    fun oracle m fuel res hm h => ?_⟩
  · exact dandi_loop_clip fuel oracle m 1 [] res hm (by simp) h
  · exact physionet_loop_clip fuel oracle m 1 [] res hm (by simp) h
  · exact zenodo_loop_clip fuel oracle m 1 [] res hm (by simp) h

/-- C2 witness: the dandi adapter with max_datasets=5 fed ten-record
pages returns exactly five records, and the amended theorem applies to
that run. -/
theorem C2_witness :
    (0 < 5) ∧
    dandi.fetch_all_datasets c2dOracle (some 5) 3 = some (List.replicate 5 {}) ∧
    (List.replicate 5 ({} : dandi.Dandiset)).length ≤ 5 :=
  ⟨by decide, by decide,
    C2_amended.1 c2dOracle 5 3 (List.replicate 5 {}) (by decide) (by decide)⟩

/-- C3 counterexample: the claim says every adapter returns the
accumulated records when a page fetch fails after a success; the zenodo
loop has no exception handler, so after a successful three-record first
page a failure on page 2 propagates as an exception instead of
returning the three records. -/
theorem C3_counterexample :
    zenodo.fetch_all_datasets c3zOracle none 5 = some (Except.error ()) := rfl

/-- C3 amended: the openneuro, dandi and physionet adapters catch an
HTTP or transport error on the current page and immediately return
exactly the records accumulated from the earlier pages; zenodo (shown
by the counterexample) propagates such an error instead. -/
theorem C3_amended :
    (∀ (oracle : Option String → openneuro.Page) (maxd : Option Nat) (fuel : Nat)
      (cursor : Option String) (acc : List openneuro.Node),
      oracle cursor = openneuro.Page.fetchError →
      openneuro.fetch_all_loop oracle maxd (fuel + 1) cursor acc = some acc) ∧
    (∀ (oracle : Nat → dandi.Page) (maxd : Option Nat) (fuel page : Nat)
      (acc : List dandi.Dandiset),
      oracle page = dandi.Page.fetchError →
      dandi.fetch_all_loop oracle maxd (fuel + 1) page acc = some acc) ∧
    (∀ (oracle : Nat → physionet.Page) (maxd : Option Nat) (fuel page : Nat)
      (acc : List physionet.Database),
      oracle page = physionet.Page.fetchError →
      physionet.fetch_all_loop oracle maxd (fuel + 1) page acc = some acc) := by
  refine ⟨fun oracle maxd fuel cursor acc h => ?_, fun oracle maxd fuel page acc h => ?_,
    fun oracle maxd fuel page acc h => ?_⟩
  · rw [openneuro.fetch_all_loop, h]
  · rw [dandi.fetch_all_loop, h]
  · rw [physionet.fetch_all_loop, h]

/-- C3 witness: the dandi adapter hitting a failure on page 2 after a
successful three-record page 1 returns exactly those three records. -/
theorem C3_witness :
    (c3dOracle 2 = dandi.Page.fetchError) ∧
    dandi.fetch_all_loop c3dOracle none 3 2 (List.replicate 3 {}) =
      some (List.replicate 3 {}) :=
  ⟨by decide, C3_amended.2.1 c3dOracle none 2 2 (List.replicate 3 {}) (by decide)⟩

/-- C4 counterexample: the claim says a rebuild with no sources argument
covers four sources including zenodo; with every fetch succeeding
(empty lists) the default build returns exactly three per-source counts
and none for zenodo. -/
theorem C4_counterexample :
    (database.build c4fetched none "t0" database.emptyDb).1 =
      [("openneuro", 0), ("dandi", 0), ("physionet", 0)] ∧
    ((database.build c4fetched none "t0" database.emptyDb).1.map Prod.fst).contains
      "zenodo" = false := by
  constructor
  · rfl
  · rfl

/-- C4 amended: a rebuild with no sources argument processes the three
known sources openneuro, dandi and physionet (a zenodo adapter exists
but is not wired into the store) and returns a per-source count entry
for exactly those three, in that order, whatever each fetch does. -/
theorem C4_amended : ∀ (fetched : String → Except Unit (List database.Dataset))
    (now : String) (st : database.DbState),
    ((database.build fetched none now st).1).map Prod.fst = database.knownSources := by
  intro fetched now st
  cases h1 : fetched "openneuro" <;> cases h2 : fetched "dandi" <;>
    cases h3 : fetched "physionet" <;>
      simp [database.build, database.build_source, database.knownSources,
        database.setAssoc, h1, h2, h3]

/-- C5 counterexample: the claim says downloads and views are
non-negative integers defaulting to 0 when absent; openneuro
format_dataset on a record with no analytics block yields None (null)
for both rather than 0 (while n_subjects does default to 0). -/
theorem C5_counterexample :
    (openneuro.format_dataset c5node).downloads = none ∧
    (openneuro.format_dataset c5node).views = none ∧
    (openneuro.format_dataset c5node).n_subjects = 0 := by
  refine ⟨rfl, rfl, rfl⟩

/-- C5 amended: openneuro format_dataset substitutes the documented
defaults for the absent structural fields — n_subjects is 0 when the
record has no subjects list, modalities and tasks default to the empty
list, size_gb to 0 — but downloads and views are copied from the
analytics block unchanged and are null when it is absent, not 0. -/
theorem C5_amended : ∀ node : openneuro.Node,
    (node.analytics = none →
      (openneuro.format_dataset node).downloads = none ∧
      (openneuro.format_dataset node).views = none) ∧
    (((node.draft.getD {}).summary.getD {}).subjects = none →
      (openneuro.format_dataset node).n_subjects = 0) ∧
    (((node.draft.getD {}).summary.getD {}).modalities = none →
      (openneuro.format_dataset node).modalities = []) ∧
    (((node.draft.getD {}).summary.getD {}).tasks = none →
      (openneuro.format_dataset node).tasks = []) ∧
    (((node.draft.getD {}).summary.getD {}).size = none →
      (openneuro.format_dataset node).size_gb = 0) := by
  intro node
  refine ⟨fun h => ?_, fun h => ?_, fun h => ?_, fun h => ?_, fun h => ?_⟩
  · rw [openneuro.format_dataset]
    simp [h]
  · rw [openneuro.format_dataset]
    simp [h]
  · rw [openneuro.format_dataset]
    simp [h]
  · rw [openneuro.format_dataset]
    simp [h]
  · rw [openneuro.format_dataset]
    simp [h, round2]

/-- C5 witness: the amended theorem applied to the bare node with only
an id: analytics is absent so downloads and views come out null, and
the absent subjects list yields n_subjects 0. -/
theorem C5_witness :
    (c5node.analytics = none ∧
      (openneuro.format_dataset c5node).downloads = none ∧
      (openneuro.format_dataset c5node).views = none) ∧
    (((c5node.draft.getD {}).summary.getD {}).subjects = none ∧
      (openneuro.format_dataset c5node).n_subjects = 0) :=
  ⟨⟨rfl, (C5_amended c5node).1 rfl⟩, ⟨rfl, (C5_amended c5node).2.1 rfl⟩⟩

/-- C6 counterexample: the claim says every adapter falls back to the
record id when the human title is absent; openneuro format_dataset on a
titleless node yields the literal N/A, not the id ds000003. -/
theorem C6_counterexample :
    (openneuro.format_dataset c6node).name = "N/A" ∧
    ((openneuro.format_dataset c6node).name == c6node.id) = false := by
  refine ⟨rfl, rfl⟩

/-- C6 amended: only the dandi normalizer falls back to the record
identifier when the draft name is absent; openneuro falls back to the
BIDS description Name and then the literal N/A, physionet to the raw
name field and then N/A, and zenodo to the empty string. -/
theorem C6_amended :
    (∀ (d : dandi.Dandiset) (idv : String), d.identifier = some idv →
      (d.draft_version.getD {}).name = none →
      (dandi.format_dataset d).name = idv) ∧
    (∀ node : openneuro.Node, strTruthy node.name = false →
      ((node.draft.getD {}).description.getD {}).Name = none →
      (openneuro.format_dataset node).name = "N/A") ∧
    (∀ db : physionet.Database, db.title = none → db.name = none →
      (physionet.format_dataset db).name = "N/A") ∧
    (∀ r : zenodo.Record, (r.metadata.getD {}).title = none →
      (zenodo.format_dataset r).name = "") := by
  refine ⟨fun d idv h1 h2 => ?_, fun node h1 h2 => ?_, fun db h1 h2 => ?_, fun r h1 => ?_⟩
  · rw [dandi.format_dataset]
    simp [h1, h2]
  · rw [openneuro.format_dataset]
    cases hn : node.name with
    | none => simp [orStr, h2]
    | some s =>
      rw [hn] at h1
      simp [strTruthy] at h1
      simp [orStr, h1, h2]
  · rw [physionet.format_dataset]
    simp [h1, h2]
  · rw [zenodo.format_dataset]
    simp [h1]

/-- C6 witness: the amended theorem applied to a dandiset whose draft
has no name: the normalized name is its identifier 000001. -/
theorem C6_witness :
    (c6dandiset.identifier = some "000001") ∧
    ((c6dandiset.draft_version.getD {}).name = none) ∧
    (dandi.format_dataset c6dandiset).name = "000001" :=
  ⟨rfl, rfl, C6_amended.1 c6dandiset "000001" rfl rfl⟩

/-- C7 counterexample: the claim says every adapter stops immediately at
a zero-record page; openneuro never tests for an empty page — fed two
three-record pages, then an empty page whose pageInfo still reports
hasNextPage, then a final two-record page, it issues a request after
the empty page and returns eight records instead of six. -/
theorem C7_counterexample :
    openneuro.fetch_all_datasets c7onOracle none 10 =
      some [c2node 1, c2node 2, c2node 3, c2node 4, c2node 5, c2node 6,
            c2node 7, c2node 8] := by
  decide

/-- C7 amended: the dandi, physionet and zenodo loops stop as soon as
the fetched page carries zero records, returning exactly the records
accumulated so far without issuing another page request; openneuro
stops on an empty page only through hasNextPage being false (the
counterexample shows it keeps paging otherwise). -/
theorem C7_amended :
    (∀ (oracle : Nat → dandi.Page) (maxd : Option Nat) (fuel page : Nat)
      (acc : List dandi.Dandiset) (hasNext : Bool),
      oracle page = dandi.Page.ok [] hasNext →
      dandi.fetch_all_loop oracle maxd (fuel + 1) page acc = some acc) ∧
    (∀ (oracle : Nat → physionet.Page) (maxd : Option Nat) (fuel page : Nat)
      (acc : List physionet.Database),
      oracle page = physionet.Page.plainList [] →
      physionet.fetch_all_loop oracle maxd (fuel + 1) page acc = some acc) ∧
    (∀ (oracle : Nat → physionet.Page) (maxd : Option Nat) (fuel page : Nat)
      (acc : List physionet.Database) (hasNext : Bool),
      oracle page = physionet.Page.envelope [] hasNext →
      physionet.fetch_all_loop oracle maxd (fuel + 1) page acc = some acc) ∧
    (∀ (oracle : Nat → zenodo.Page) (maxd : Option Nat) (fuel page : Nat)
      (acc : List zenodo.Record) (total : Nat),
      oracle page = zenodo.Page.ok [] total →
      zenodo.fetch_all_loop oracle maxd (fuel + 1) page acc = some (Except.ok acc)) ∧
    (∀ (oracle : Option String → openneuro.Page) (maxd : Option Nat) (fuel : Nat)
      (cursor endCursor : Option String) (acc : List openneuro.Node),
      oracle cursor = openneuro.Page.ok [] false endCursor →
      openneuro.fetch_all_loop oracle maxd (fuel + 1) cursor acc = some acc) := by
  refine ⟨fun oracle maxd fuel page acc hasNext h => ?_,
    fun oracle maxd fuel page acc h => ?_,
    fun oracle maxd fuel page acc hasNext h => ?_,
    fun oracle maxd fuel page acc total h => ?_,
    fun oracle maxd fuel cursor endCursor acc h => ?_⟩
  · rw [dandi.fetch_all_loop, h]
    simp
  · rw [physionet.fetch_all_loop, h]
    simp
  · rw [physionet.fetch_all_loop, h]
    simp
  · rw [zenodo.fetch_all_loop, h]
    simp
  · rw [openneuro.fetch_all_loop, h]
    simp

/-- C7 witness: the spec scenario run on the dandi adapter — two
three-record pages then an empty page, no max_records — returns exactly
six records, the empty third page returning the accumulation unchanged
by the amended theorem. -/
theorem C7_witness :
    (c7dOracle 3 = dandi.Page.ok [] true) ∧
    dandi.fetch_all_loop c7dOracle none 7 3 (List.replicate 6 {}) =
      some (List.replicate 6 {}) ∧
    dandi.fetch_all_datasets c7dOracle none 9 = some (List.replicate 6 {}) :=
  ⟨by decide, C7_amended.1 c7dOracle none 6 3 (List.replicate 6 {}) true (by decide),
    by decide⟩

/-- C8 counterexample: the claim says a record missing the sort field is
always placed last; in a descending sort a record with no downloads
field keys as 0 and ties with a record whose downloads is 0, and the
stable sort keeps the missing record first, not last. -/
theorem C8_counterexample :
    search.sort_datasets [c8missing, c8zero] "downloads" true = [c8missing, c8zero] ∧
    search.dictGet c8missing "downloads" = none ∧
    search.dictGet c8zero "downloads" = some 0 := by
  refine ⟨?_, rfl, rfl⟩
  rw [search.sort_datasets]
  simp only [if_true]
  rw [mergeSort_pair]
  decide

/-- C8 amended: sort_datasets is a stable sort in which a record missing
the sort field keys as 0 when descending and as positive infinity when
ascending; hence in a descending sort every record after a missing one
has a non-positive value (missing records sit after all positive
values, tying with zeros), in an ascending sort everything after a
missing record is itself missing (missing records are last), and two
records with equal keys keep their input order. -/
theorem C8_amended :
    (∀ (l : List search.Dict) (field : String),
      (search.sort_datasets l field true).Pairwise
        (fun a b => search.dictGet a field = none →
          ∀ v : Int, search.dictGet b field = some v → v ≤ 0)) ∧
    (∀ (l : List search.Dict) (field : String),
      (search.sort_datasets l field false).Pairwise
        (fun a b => search.dictGet a field = none → search.dictGet b field = none)) ∧
    (∀ (l : List search.Dict) (field : String) (descending : Bool) (a b : search.Dict),
      List.Sublist [a, b] l →
      search.get_key descending field a = search.get_key descending field b →
      List.Sublist [a, b] (search.sort_datasets l field descending)) := by
  refine ⟨fun l field => ?_, fun l field => ?_,
    fun l field descending a b hsub hkey => ?_⟩
  · rw [search.sort_datasets]
    simp only [if_true]
    have hp := @List.sorted_mergeSort _
      (fun x y => search.SortKey.le (search.get_key true field y) (search.get_key true field x))
      (fun x y z hxy hyz => sortKey_le_trans _ _ _ hyz hxy)
      (fun x y => sortKey_le_total _ _) l
    refine hp.imp ?_
    intro x y hxy hxnone v hyv
    have hx : search.get_key true field x = search.SortKey.val 0 := by
      simp [search.get_key, hxnone]
    have hy : search.get_key true field y = search.SortKey.val v := by
      simp [search.get_key, hyv]
    rw [hx, hy] at hxy
    simpa [search.SortKey.le] using hxy
  · rw [search.sort_datasets]
    simp only [Bool.false_eq_true, if_false]
    have hp := @List.sorted_mergeSort _
      (fun x y => search.SortKey.le (search.get_key false field x) (search.get_key false field y))
      (fun x y z hxy hyz => sortKey_le_trans _ _ _ hxy hyz)
      (fun x y => sortKey_le_total _ _) l
    refine hp.imp ?_
    intro x y hxy hxnone
    have hx : search.get_key false field x = search.SortKey.posInf := by
      simp [search.get_key, hxnone]
    rw [hx] at hxy
    cases hv : search.dictGet y field with
    | none => rfl
    | some v =>
      have hy : search.get_key false field y = search.SortKey.val v := by
        simp [search.get_key, hv]
      rw [hy] at hxy
      simp [search.SortKey.le] at hxy
  · cases descending with
    | true =>
      rw [search.sort_datasets]
      simp only [if_true]
      refine @List.pair_sublist_mergeSort _
        (fun x y => search.SortKey.le (search.get_key true field y) (search.get_key true field x))
        a b l
        (fun x y z hxy hyz => sortKey_le_trans _ _ _ hyz hxy)
        (fun x y => sortKey_le_total _ _) ?_ hsub
      show search.SortKey.le (search.get_key true field b) (search.get_key true field a) = true
      rw [hkey]
      exact sortKey_le_refl _
    | false =>
      rw [search.sort_datasets]
      simp only [Bool.false_eq_true, if_false]
      refine @List.pair_sublist_mergeSort _
        (fun x y => search.SortKey.le (search.get_key false field x) (search.get_key false field y))
        a b l
        (fun x y z hxy hyz => sortKey_le_trans _ _ _ hxy hyz)
        (fun x y => sortKey_le_total _ _) ?_ hsub
      show search.SortKey.le (search.get_key false field a) (search.get_key false field b) = true
      rw [hkey]
      exact sortKey_le_refl _

/-- C8 witness: the stability part of the amended theorem applied to the
two-record counterexample list: the missing-field record and the
zero-valued record have equal descending keys and keep their input
order in the sorted output. -/
theorem C8_witness :
    (List.Sublist [c8missing, c8zero] [c8missing, c8zero]) ∧
    (search.get_key true "downloads" c8missing = search.get_key true "downloads" c8zero) ∧
    List.Sublist [c8missing, c8zero]
      (search.sort_datasets [c8missing, c8zero] "downloads" true) :=
  ⟨List.Sublist.refl _, by decide,
    C8_amended.2.2 [c8missing, c8zero] "downloads" true c8missing c8zero
      (List.Sublist.refl _) (by decide)⟩

/-- C9: rebuilding a single source twice with an unchanged fetch outcome
yields the same per-source counts both times, and the second rebuild
leaves the store with the same set of row ids as the first: the
composite key source:id makes every repeated insert replace its row
rather than duplicate it. -/
theorem C9_rebuild_idempotent : ∀ (fetched : String → Except Unit (List database.Dataset))
    (st : database.DbState) (now1 now2 s : String),
    (database.build fetched (some [s]) now1 st).1 =
      (database.build fetched (some [s]) now2
        ((database.build fetched (some [s]) now1 st).2)).1 ∧
    (∀ x : String,
      x ∈ database.rowIds ((database.build fetched (some [s]) now2
        ((database.build fetched (some [s]) now1 st).2)).2) ↔
      x ∈ database.rowIds ((database.build fetched (some [s]) now1 st).2)) := by
  intro fetched st now1 now2 s
  by_cases hs : s ∈ database.knownSources
  · cases hfe : fetched s with
    | error e =>
      refine ⟨?_, fun x => ?_⟩
      · simp [database.build, database.build_source, hs, hfe]
      · simp [database.build, database.build_source, hs, hfe, database.rowIds]
    | ok ds =>
      refine ⟨?_, fun x => ?_⟩
      · simp [database.build, database.build_source, hs, hfe]
      · have hmeta : ∀ (st' : database.DbState) (md : List (String × String)),
            database.rowIds { st' with metadata := md } = database.rowIds st' :=
          fun st' md => rfl
        simp only [database.build, database.build_source, Option.getD_some,
          List.foldl_cons, List.foldl_nil, hs, if_true, hfe, hmeta]
        rw [mem_rowIds_insertAll, mem_rowIds_insertAll, hmeta, mem_rowIds_insertAll]
        tauto
  · refine ⟨?_, fun x => ?_⟩
    · simp [database.build, database.build_source, hs]
    · simp [database.build, database.build_source, hs, database.rowIds]

/-- C10: on a path where no store was ever built, search does not raise
and returns the empty list for any parameters and any full-text match
semantics, and as a side effect it creates the store file with empty
tables, so a subsequent stats call on that path reports exists=true
with total_datasets=0 instead of exists=false. -/
theorem C10_search_never_built : ∀ (ftsMatch : String → database.FtsEntry → Bool)
    (p : database.SearchParams),
    database.search ftsMatch none p = ([], some database.emptyDb) ∧
    (database.get_stats (some database.emptyDb)).existsFlag = true ∧
    (database.get_stats (some database.emptyDb)).total_datasets = 0 ∧
    (database.get_stats none).existsFlag = false := by
  intro ftsMatch p
  refine ⟨?_, rfl, rfl, rfl⟩
  simp [database.search, database.get_connection, database.searchExec, database.emptyDb]
